import Mathlib

/-! Dwarf Therapist, `src/dftime.cpp`: calendar name tables and the day suffix.

A shallow embedding of the three exported entities of `dftime.cpp`:

* `DFSeasons`, a `std::array<const char *, 4>`;
* `DFMonths`, a `std::array<const char *, 12>`;
* `day_suffix`, a `switch` over an `int`.

The C++ `int` argument is embedded as `Int`: `day_suffix` performs no arithmetic
on it, only equality tests against literals, so no overflow can occur and every
machine integer is an `Int`.  The fixed-size arrays of C strings are embedded as
`Array String`.
-/

namespace DFTime

/-! ## Definitions translated from the source -/

/-- The table `DFSeasons` (dftime.cpp, lines 26 to 31). -/
def DFSeasons : Array String := #[
  "Spring",
  "Summer",
  "Autumn",
  "Winter"
]

/-- The table `DFMonths` (dftime.cpp, lines 33 to 46). -/
def DFMonths : Array String := #[
  "Granite",
  "Slate",
  "Felsite",
  "Hematite",
  "Malachite",
  "Galena",
  "Limestone",
  "Sandstone",
  "Timber",
  "Moonstone",
  "Opal",
  "Obsidian"
]

/-- The subscript `table[i]` of a `std::array`, for an index inside the bounds:
the element at position `i` when `0 ≤ i < size`.  The C++ subscript is unchecked
and has no defined result outside the bounds; `dftime.cpp` has no accessor and no
error branch of its own.  The value `none` only marks such an index as having no
defined result, it is not a behaviour of the code, and every statement below
uses `entry` at indices inside the bounds. -/
def entry (table : Array String) (i : Int) : Option String :=
  if 0 ≤ i then table[i.toNat]? else none

/-- The function `day_suffix` (dftime.cpp, lines 48 to 63): a `switch` on `n`
with the case labels 1 and 21, 2 and 22, 3 and 23 falling through to a common
`return`, and a `default` label. -/
def day_suffix (n : Int) : String :=
  match n with
  | 1
  | 21 => "st"
  | 2
  | 22 => "nd"
  | 3
  | 23 => "rd"
  | _ => "th"

/-! ## Definitions following the specification

These are the formulations the specification text gives; they are compared with
the definitions above and are never used in place of them. -/

/-- The guard chain of the specification, section 4.2, "Algorithm". -/
def spec_guard_chain (n : Int) : String :=
  if n = 1 ∨ n = 21 then "st"
  else if n = 2 ∨ n = 22 then "nd"
  else if n = 3 ∨ n = 23 then "rd"
  else "th"

/-- The finite map of the lookup-table formulation (specification, section 9):
the six special-cased day values with their suffixes. -/
def spec_suffix_table : List (Int × String) :=
  [(1, "st"), (21, "st"), (2, "nd"), (22, "nd"), (3, "rd"), (23, "rd")]

/-- The lookup-table formulation: look `n` up among the keys of
`spec_suffix_table` and fall back to "th" when `n` is not a key. -/
def spec_table_suffix (n : Int) : String :=
  (spec_suffix_table.lookup n).getD "th"

/-- The standard English ordinal rule the specification refers to: "th" when
`n mod 100` is 11, 12 or 13, otherwise "st", "nd", "rd" when `n mod 10` is 1, 2,
3, otherwise "th".  The remainder is the nonnegative one of `Int`; on `n ≥ 0` it is
the value of the C expression `n % 100`. -/
def spec_standard_suffix (n : Int) : String :=
  if n % 100 = 11 ∨ n % 100 = 12 ∨ n % 100 = 13 then "th"
  else if n % 10 = 1 then "st"
  else if n % 10 = 2 then "nd"
  else if n % 10 = 3 then "rd"
  else "th"

/-! ## Auxiliary facts -/

/-- The `switch` unfolded into its four outcomes, each with the condition under
which it is taken. -/
theorem day_suffix_cases (n : Int) :
    ((n = 1 ∨ n = 21) ∧ day_suffix n = "st") ∨
    ((n = 2 ∨ n = 22) ∧ day_suffix n = "nd") ∨
    ((n = 3 ∨ n = 23) ∧ day_suffix n = "rd") ∨
    ((n ≠ 1 ∧ n ≠ 21 ∧ n ≠ 2 ∧ n ≠ 22 ∧ n ≠ 3 ∧ n ≠ 23) ∧ day_suffix n = "th") := by
  unfold day_suffix
  split <;> simp_all

/-! ## The claims -/

/-- Claim C1: for every integer `n`, `day_suffix n` equals the guard chain of the
specification: "st" if `n` is 1 or 21, otherwise "nd" if `n` is 2 or 22,
otherwise "rd" if `n` is 3 or 23, otherwise "th". -/
theorem day_suffix_eq_guard_chain (n : Int) : day_suffix n = spec_guard_chain n := by
  unfold day_suffix spec_guard_chain
  split <;> simp_all

/-- Claim C2: `DFMonths` has exactly 12 entries, and entry `i` is the `i`-th name
of the list Granite, Slate, Felsite, Hematite, Malachite, Galena, Limestone,
Sandstone, Timber, Moonstone, Opal, Obsidian, for each of the indices 0 to 11. -/
theorem DFMonths_entries :
    DFMonths.size = 12 ∧
    entry DFMonths 0 = some "Granite" ∧
    entry DFMonths 1 = some "Slate" ∧
    entry DFMonths 2 = some "Felsite" ∧
    entry DFMonths 3 = some "Hematite" ∧
    entry DFMonths 4 = some "Malachite" ∧
    entry DFMonths 5 = some "Galena" ∧
    entry DFMonths 6 = some "Limestone" ∧
    entry DFMonths 7 = some "Sandstone" ∧
    entry DFMonths 8 = some "Timber" ∧
    entry DFMonths 9 = some "Moonstone" ∧
    entry DFMonths 10 = some "Opal" ∧
    entry DFMonths 11 = some "Obsidian" := by
  refine ⟨rfl, rfl, rfl, rfl, rfl, rfl, rfl, rfl, rfl, rfl, rfl, rfl, rfl⟩

/-- Claim C3: `DFSeasons` has exactly 4 entries, and entry `i` is the `i`-th name
of the list Spring, Summer, Autumn, Winter, for each of the indices 0 to 3. -/
theorem DFSeasons_entries :
    DFSeasons.size = 4 ∧
    entry DFSeasons 0 = some "Spring" ∧
    entry DFSeasons 1 = some "Summer" ∧
    entry DFSeasons 2 = some "Autumn" ∧
    entry DFSeasons 3 = some "Winter" := by
  refine ⟨rfl, rfl, rfl, rfl, rfl⟩

/-- Claim C4: `day_suffix` is total, and for every integer `n` (negative, zero
and values outside 1 to 31 included) the value it returns is one of the four
literals "st", "nd", "rd", "th"; the four literals are pairwise distinct, so
it is exactly one of them. -/
theorem day_suffix_total (n : Int) :
    (∃ s : String, day_suffix n = s ∧ s ∈ ["st", "nd", "rd", "th"]) ∧
    ["st", "nd", "rd", "th"].Nodup := by
  refine ⟨⟨day_suffix n, rfl, ?_⟩, by decide⟩
  rcases day_suffix_cases n with h | h | h | h <;> simp [h.2]

/-- Claim C5: for every integer `n`, `day_suffix n` is "th" if and only if `n` is
none of 1, 2, 3, 21, 22, 23; in particular every `n ≤ 0` and every `n ≥ 24`
yields "th". -/
theorem day_suffix_th_iff (n : Int) :
    (day_suffix n = "th" ↔ n ∉ [1, 2, 3, 21, 22, 23]) ∧
    (n ≤ 0 → day_suffix n = "th") ∧
    (24 ≤ n → day_suffix n = "th") := by
  have key : day_suffix n = "th" ↔ n ∉ [1, 2, 3, 21, 22, 23] := by
    rcases day_suffix_cases n with h | h | h | h
    · rcases h with ⟨h1 | h1, h2⟩ <;> subst h1 <;> simp [h2]
    · rcases h with ⟨h1 | h1, h2⟩ <;> subst h1 <;> simp [h2]
    · rcases h with ⟨h1 | h1, h2⟩ <;> subst h1 <;> simp [h2]
    · obtain ⟨⟨a, b, c, d, e, f⟩, h2⟩ := h
      simp [h2, a, b, c, d, e, f]
  refine ⟨key, fun h => key.mpr ?_, fun h => key.mpr ?_⟩
  · simp only [List.mem_cons, List.mem_singleton, List.not_mem_nil, or_false, not_or]
    omega
  · simp only [List.mem_cons, List.mem_singleton, List.not_mem_nil, or_false, not_or]
    omega

/-- The statement of C5 evaluated at the out-of-range days 0, -5, 24 and 31 and
at the special day 21. -/
theorem day_suffix_th_iff_witness :
    day_suffix 0 = "th" ∧ day_suffix (-5) = "th" ∧ day_suffix 24 = "th" ∧
    day_suffix 31 = "th" ∧ day_suffix 21 ≠ "th" :=
  ⟨(day_suffix_th_iff 0).2.1 (by decide), (day_suffix_th_iff (-5)).2.1 (by decide),
   (day_suffix_th_iff 24).2.2 (by decide), (day_suffix_th_iff 31).2.2 (by decide),
   fun h => (day_suffix_th_iff 21).1.mp h (by decide)⟩

/-- Claim C6: the listed test points hold: 1 and 21 give "st", 2 and 22 give
"nd", 3 and 23 give "rd", and 4, 11, 0 and -5 give "th". -/
theorem day_suffix_test_points :
    day_suffix 1 = "st" ∧ day_suffix 21 = "st" ∧
    day_suffix 2 = "nd" ∧ day_suffix 22 = "nd" ∧
    day_suffix 3 = "rd" ∧ day_suffix 23 = "rd" ∧
    day_suffix 4 = "th" ∧ day_suffix 11 = "th" ∧
    day_suffix 0 = "th" ∧ day_suffix (-5) = "th" := by
  refine ⟨rfl, rfl, rfl, rfl, rfl, rfl, rfl, rfl, rfl, rfl⟩

/-- Claim C8: for every integer `n`, the string `day_suffix n` has length
exactly 2. -/
theorem day_suffix_length (n : Int) : (day_suffix n).length = 2 := by
  rcases day_suffix_cases n with h | h | h | h <;> rw [h.2] <;> rfl

/-- Claim C9: the `switch` is extensionally equal to the lookup-table
formulation: for every integer `n`, `day_suffix n` is the value found for `n`
in the finite map 1 to "st", 21 to "st", 2 to "nd", 22 to "nd", 3 to "rd",
23 to "rd", and "th" when `n` is not a key. -/
theorem day_suffix_eq_table (n : Int) : day_suffix n = spec_table_suffix n := by
  rcases day_suffix_cases n with h | h | h | h
  · rcases h with ⟨h1 | h1, h2⟩ <;> subst h1 <;> rfl
  · rcases h with ⟨h1 | h1, h2⟩ <;> subst h1 <;> rfl
  · rcases h with ⟨h1 | h1, h2⟩ <;> subst h1 <;> rfl
  · obtain ⟨⟨a, b, c, d, e, f⟩, h2⟩ := h
    have ne_beq : ∀ k : Int, n ≠ k → (n == k) = false := fun k hk => by simpa using hk
    rw [h2]
    simp [spec_table_suffix, spec_suffix_table, List.lookup, ne_beq 1 a, ne_beq 21 b,
      ne_beq 2 c, ne_beq 22 d, ne_beq 3 e, ne_beq 23 f]

/-- Claim C10, as stated, fails: at `n = 11` the value of `day_suffix` does not
differ from the standard English ordinal suffix; both are "th". -/
theorem day_suffix_11_not_differs :
    day_suffix 11 = "th" ∧ spec_standard_suffix 11 = "th" ∧
    ¬ (day_suffix 11 ≠ spec_standard_suffix 11) :=
  ⟨rfl, rfl, fun h => h rfl⟩

/-- Claim C10, amended: for `n` among 11, 12 and 13, `day_suffix n` is "th",
which is the standard English ordinal suffix of `n`; the default branch of the
`switch` handles these three day values correctly. -/
theorem day_suffix_teens (n : Int) (h : n ∈ [11, 12, 13]) :
    day_suffix n = "th" ∧ day_suffix n = spec_standard_suffix n := by
  simp only [List.mem_cons, List.mem_singleton, List.not_mem_nil, or_false] at h
  rcases h with h | h | h <;> subst h <;> exact ⟨rfl, rfl⟩

/-- The amended C10 at the day value 12. -/
theorem day_suffix_teens_witness :
    day_suffix 12 = "th" ∧ day_suffix 12 = spec_standard_suffix 12 :=
  day_suffix_teens 12 (by decide)

/-- Claim C11: `day_suffix` does not follow the standard English ordinal rule on
all inputs: at `n = 31` it returns "th" where the standard rule gives "st", so
there is an integer on which the two differ; and for every `n ≥ 24` with
`n mod 10` among 1, 2, 3 and `n mod 100` not among 11, 12, 13 the two differ. -/
theorem day_suffix_not_standard (n : Int) :
    (day_suffix 31 = "th" ∧ spec_standard_suffix 31 = "st") ∧
    (∃ m : Int, day_suffix m ≠ spec_standard_suffix m) ∧
    (24 ≤ n → (n % 10 = 1 ∨ n % 10 = 2 ∨ n % 10 = 3) →
      ¬ (n % 100 = 11 ∨ n % 100 = 12 ∨ n % 100 = 13) →
      day_suffix n ≠ spec_standard_suffix n) := by
  refine ⟨⟨rfl, rfl⟩, ⟨31, by decide⟩, ?_⟩
  intro h24 h10 h100
  have hth : day_suffix n = "th" := by
    rcases day_suffix_cases n with h | h | h | h
    · omega
    · omega
    · omega
    · exact h.2
  rw [hth]
  unfold spec_standard_suffix
  rw [if_neg h100]
  rcases h10 with h | h | h
  · rw [if_pos h]; decide
  · have h1 : ¬ n % 10 = 1 := by omega
    rw [if_neg h1, if_pos h]; decide
  · have h1 : ¬ n % 10 = 1 := by omega
    have h2 : ¬ n % 10 = 2 := by omega
    rw [if_neg h1, if_neg h2, if_pos h]; decide

/-- The general part of C11 at the day values 31 and 42 and at 123. -/
theorem day_suffix_not_standard_witness :
    day_suffix 31 ≠ spec_standard_suffix 31 ∧
    day_suffix 42 ≠ spec_standard_suffix 42 ∧
    day_suffix 123 ≠ spec_standard_suffix 123 :=
  ⟨(day_suffix_not_standard 31).2.2 (by decide) (by decide) (by decide),
   (day_suffix_not_standard 42).2.2 (by decide) (by decide) (by decide),
   (day_suffix_not_standard 123).2.2 (by decide) (by decide) (by decide)⟩

/-- Claim C12: on the range `1 ≤ n ≤ 30` the value of `day_suffix` is the one of
the standard English ordinal rule, and 31 is the smallest positive integer on
which the two differ: they differ at 31, and every positive integer on which
they differ is at least 31. -/
theorem day_suffix_standard_upto_30 (n : Int) :
    (1 ≤ n → n ≤ 30 → day_suffix n = spec_standard_suffix n) ∧
    day_suffix 31 ≠ spec_standard_suffix 31 ∧
    (0 < n → day_suffix n ≠ spec_standard_suffix n → 31 ≤ n) := by
  have agree : 1 ≤ n → n ≤ 30 → day_suffix n = spec_standard_suffix n := by
    intro h1 h30
    interval_cases n <;> rfl
  refine ⟨agree, by decide, ?_⟩
  intro hpos hne
  by_contra hlt
  exact hne (agree (by omega) (by omega))

/-- The statement of C12 at the day values 1, 13, 21 and 30, and its bound at the
day value 31. -/
theorem day_suffix_standard_upto_30_witness :
    day_suffix 1 = spec_standard_suffix 1 ∧
    day_suffix 13 = spec_standard_suffix 13 ∧
    day_suffix 21 = spec_standard_suffix 21 ∧
    day_suffix 30 = spec_standard_suffix 30 ∧
    (31 : Int) ≤ 31 :=
  ⟨(day_suffix_standard_upto_30 1).1 (by decide) (by decide),
   (day_suffix_standard_upto_30 13).1 (by decide) (by decide),
   (day_suffix_standard_upto_30 21).1 (by decide) (by decide),
   (day_suffix_standard_upto_30 30).1 (by decide) (by decide),
   (day_suffix_standard_upto_30 31).2.2 (by decide) (by decide)⟩

/-- Claim C13: the name tables contain no duplicates, so index lookup is
injective: for `i`, `j` in 0 to 11, equal entries of `DFMonths` have equal
indices; for `i`, `j` in 0 to 3, equal entries of `DFSeasons` have equal
indices; and no season name equals any month name. -/
theorem tables_injective (i j : Int) :
    (0 ≤ i → i ≤ 11 → 0 ≤ j → j ≤ 11 → entry DFMonths i = entry DFMonths j → i = j) ∧
    (0 ≤ i → i ≤ 3 → 0 ≤ j → j ≤ 3 → entry DFSeasons i = entry DFSeasons j → i = j) ∧
    (0 ≤ i → i ≤ 3 → 0 ≤ j → j ≤ 11 → entry DFSeasons i ≠ entry DFMonths j) ∧
    DFMonths.toList.Nodup ∧ DFSeasons.toList.Nodup ∧
    (∀ s ∈ DFSeasons.toList, s ∉ DFMonths.toList) := by
  refine ⟨?_, ?_, ?_, by decide, by decide, by decide⟩
  · intro hi0 hi1 hj0 hj1
    interval_cases i <;> interval_cases j <;> decide
  · intro hi0 hi1 hj0 hj1
    interval_cases i <;> interval_cases j <;> decide
  · intro hi0 hi1 hj0 hj1
    interval_cases i <;> interval_cases j <;> decide

/-- The statement of C13 at concrete indices: the month entries 4 and 9 differ,
the season entries 0 and 3 differ, and the season entry 2 is not the month
entry 8. -/
theorem tables_injective_witness :
    entry DFMonths 4 ≠ entry DFMonths 9 ∧
    entry DFSeasons 0 ≠ entry DFSeasons 3 ∧
    entry DFSeasons 2 ≠ entry DFMonths 8 :=
  ⟨fun h => absurd ((tables_injective 4 9).1 (by decide) (by decide) (by decide)
      (by decide) h) (by decide),
   fun h => absurd ((tables_injective 0 3).2.1 (by decide) (by decide) (by decide)
      (by decide) h) (by decide),
   (tables_injective 2 8).2.2.1 (by decide) (by decide) (by decide) (by decide)⟩

end DFTime
